import Mathlib

set_option maxRecDepth 100000

/-!
Shallow embedding of the IVOR community-support chatbot core
(src/backend/dist/server.js and src/backend/dist/services/knowledgeService.js).

JavaScript strings are embedded as Lean `String`; `String.prototype.includes`
becomes `jsIncludes` (substring test) and `toLowerCase` becomes `jsToLower`
(ASCII lowering, sufficient for every keyword in the source).  The mutable
per-request session object becomes explicit state passing; the process-wide
`userSessions` map becomes a function from session ids to optional sessions.
Emoji glyphs in the canned reply texts are dropped (they are mojibake in the
compiled source); the surrounding text is kept.
-/

/-- Character-list prefix test used to realise the JavaScript substring test. -/
def charsPrefixOf : List Char → List Char → Bool
  | [], _ => true
  | _ :: _, [] => false
  | p :: ps, c :: cs => p == c && charsPrefixOf ps cs

/-- Character-list substring test used to realise the JavaScript substring test. -/
def charsContain (pat : List Char) : List Char → Bool
  | [] => pat.isEmpty
  | c :: cs => charsPrefixOf pat (c :: cs) || charsContain pat cs

/-- `jsIncludes s pat` is JavaScript `s.includes(pat)`, a substring test. -/
def jsIncludes (s : String) (pat : String) : Bool :=
  charsContain pat.toList s.toList

/-- JavaScript `toLowerCase` restricted to ASCII, which covers every keyword
and trigger in the source. -/
def jsToLower (s : String) : String :=
  String.mk (s.toList.map Char.toLower)

/-- Severity levels returned by `detectDistressLevel` in server.js. -/
inductive DistressLevel
  | low
  | medium
  | high
  | critical
deriving DecidableEq

/-- Return value of `detectDistressLevel` (server.js lines 261-321). -/
structure DistressSignal where
  level : DistressLevel
  indicators : List String
  immediateResponse : Bool
  followUpRequired : Bool
deriving DecidableEq

/-- Critical distress keywords (server.js lines 264-268). -/
def criticalKeywords : List String :=
  ["suicide", "kill myself", "end my life", "want to die", "better off dead",
   "overdose", "self harm", "cut myself", "hurt myself",
   "emergency", "crisis", "immediate danger", "urgent help"]

/-- High distress keywords (server.js lines 270-274). -/
def highKeywords : List String :=
  ["depressed", "hopeless", "can't cope", "overwhelmed", "breaking down",
   "panic attack", "anxiety attack", "mental breakdown", "desperate",
   "isolated", "alone", "nobody cares", "worthless"]

/-- Medium distress keywords (server.js lines 276-279). -/
def mediumKeywords : List String :=
  ["stressed", "worried", "anxious", "sad", "upset", "struggling",
   "difficult time", "hard to cope", "need support", "feeling down"]

/-- `detectDistressLevel` (server.js lines 261-321). -/
def detectDistressLevel (message : String) : DistressSignal :=
  let lowerMessage := jsToLower message
  let foundCritical := criticalKeywords.filter (fun k => jsIncludes lowerMessage k)
  let foundHigh := highKeywords.filter (fun k => jsIncludes lowerMessage k)
  let foundMedium := mediumKeywords.filter (fun k => jsIncludes lowerMessage k)
  if foundCritical.length > 0 then
    { level := .critical, indicators := foundCritical,
      immediateResponse := true, followUpRequired := true }
  else if foundHigh.length ≥ 2 || (foundHigh.length ≥ 1 && foundMedium.length ≥ 1) then
    { level := .high, indicators := foundHigh ++ foundMedium,
      immediateResponse := true, followUpRequired := true }
  else if foundHigh.length ≥ 1 || foundMedium.length ≥ 2 then
    { level := .medium, indicators := foundHigh ++ foundMedium,
      immediateResponse := false, followUpRequired := true }
  else if foundMedium.length ≥ 1 then
    { level := .low, indicators := foundMedium,
      immediateResponse := false, followUpRequired := false }
  else
    { level := .low, indicators := [],
      immediateResponse := false, followUpRequired := false }

/-- Critical-level emergency template (server.js lines 323-338). -/
def criticalEmergencyText : String :=
  "**IMMEDIATE EMERGENCY SUPPORT**\n\n**If you are in immediate danger, please contact emergency services:**\n- **Emergency Services: 999**\n- **Samaritans: 116 123** (free, 24/7)\n- **Crisis Text Line: Text SHOUT to 85258**\n\n**LGBTQ+ Specific Crisis Support:**\n- **Switchboard LGBT+: 0300 330 0630** (10am-10pm daily)\n- **MindLine Trans+: 0300 330 5468** (Mon & Fri 8pm-midnight)\n\n**You are not alone. Your life has value. Help is available right now.**\n\nI'm here to support you, but please prioritize getting immediate professional help. Would you like me to help you find local crisis services or someone to talk to right now?"

/-- High-level emergency template (server.js lines 339-353). -/
def highEmergencyText : String :=
  "**PRIORITY SUPPORT AVAILABLE**\n\nI can see you're going through a really difficult time. You've taken a brave step by reaching out.\n\n**Immediate Support Options:**\n- **Samaritans: 116 123** (free, confidential, 24/7)\n- **Mind LGBTQ+: 0300 123 3393**\n- **Switchboard LGBT+: 0300 330 0630**\n- **Crisis Text Line: Text SHOUT to 85258**\n\n**You don't have to handle this alone.** I'm here to support you through this conversation, and I can help connect you with professional support.\n\nWhat feels most urgent for you right now? Would you like immediate crisis support or shall we work through this together step by step?"

/-- Medium-level emergency template (server.js lines 354-367). -/
def mediumEmergencyText : String :=
  "**CARING SUPPORT**\n\nI hear that you're struggling right now, and I want you to know that reaching out shows real strength.\n\n**Support Available:**\n- **Samaritans: 116 123** (always available to listen)\n- **Mind LGBTQ+: 0300 123 3393**\n- **Switchboard LGBT+: 0300 330 0630**\n\nI'm here to support you through this. Whether you need immediate professional support or want to work through this together, we can take it at your pace.\n\nWhat kind of support would feel most helpful right now?"

/-- `generateEmergencyResponse` (server.js lines 322-369). -/
def generateEmergencyResponse (distressSignal : DistressSignal) : String :=
  match distressSignal.level with
  | .critical => criticalEmergencyText
  | .high => highEmergencyText
  | .medium => mediumEmergencyText
  | .low => ""


/-!
Resource store adapter (src/backend/dist/services/knowledgeService.js).

The adapter issues declarative queries against the relational store
(`is_active = true` filter, `priority` descending order, row limit, plus a
per-query match condition); those query semantics are embedded here over a
list of resource rows.  A failed backing-store call is represented by the
`fail` flag of the database value: on failure every query method logs and
returns the empty list (knowledgeService.js lines 37-41, 72-76, 107-111).
-/

/-- One row of `ivor_resources` with its joined category and tag names. -/
structure Resource where
  id : Nat
  title : String
  description : String
  content : String
  website_url : Option String
  phone : Option String
  email : Option String
  address : Option String
  categoryName : Option String
  keywords : List String
  tags : List String
  is_active : Bool
  priority : Int
deriving DecidableEq

/-- The backing store seen by the knowledge service: its rows, and whether the
current call fails at the transport level. -/
structure Db where
  resources : List Resource
  fail : Bool
deriving DecidableEq

/-- Insertion step of the `priority` descending ordering applied by every
query (`.order('priority', { ascending: false })`). -/
def insertByPriorityDesc (r : Resource) : List Resource → List Resource
  | [] => [r]
  | x :: xs =>
    if x.priority < r.priority then r :: x :: xs
    else x :: insertByPriorityDesc r xs

/-- `priority` descending ordering applied by every query. -/
def sortByPriorityDesc (l : List Resource) : List Resource :=
  l.foldr insertByPriorityDesc []

/-- Shared semantics of one declarative query: keep the rows matching the
query condition and `is_active = true`, order by `priority` descending, and
truncate to the row limit. -/
def runQuery (db : Db) (cond : Resource → Bool) (lim : Nat) : List Resource :=
  if db.fail then []
  else (sortByPriorityDesc (db.resources.filter (fun r => cond r && r.is_active))).take lim

/-- Match condition of `searchResources` (knowledgeService.js line 33):
case-insensitive substring on title, description and content, or exact
membership of the query in the keyword array. -/
def searchMatches (query : String) (r : Resource) : Bool :=
  jsIncludes (jsToLower r.title) (jsToLower query) ||
  jsIncludes (jsToLower r.description) (jsToLower query) ||
  jsIncludes (jsToLower r.content) (jsToLower query) ||
  r.keywords.contains query

/-- `searchResources` (knowledgeService.js lines 9-42). -/
def searchResources (db : Db) (query : String) (lim : Nat) : List Resource :=
  runQuery db (searchMatches query) lim

/-- `getResourcesByCategory` (knowledgeService.js lines 44-77): inner join on
the category name. -/
def getResourcesByCategory (db : Db) (categoryName : String) (lim : Nat) : List Resource :=
  runQuery db (fun r => r.categoryName == some categoryName) lim

/-- `getResourcesByTags` (knowledgeService.js lines 79-112): inner join on tag
names, keeping rows that carry at least one of the requested tags. -/
def getResourcesByTags (db : Db) (tags : List String) (lim : Nat) : List Resource :=
  runQuery db (fun r => r.tags.any (fun t => tags.contains t)) lim

/-- `getCrisisResources` (knowledgeService.js lines 114-116). -/
def getCrisisResources (db : Db) : List Resource :=
  getResourcesByTags db ["Crisis", "Emergency", "24/7"] 3

/-- Fallback text of `formatResourcesForResponse` for an empty resource list
(knowledgeService.js line 146). -/
def noResourcesFallbackText : String :=
  "I don't have specific resources for that request right now, but I'm here to help in other ways. You can also try contacting general support services like Samaritans (116 123) for immediate support."

/-- Rendering of a single resource block inside `formatResourcesForResponse`
(knowledgeService.js lines 150-168); the emoji line markers of the source are
replaced by ASCII labels. -/
def formatResource (r : Resource) : String :=
  "**" ++ r.title ++ "**" ++
    (match r.categoryName with
     | some n => " (" ++ n ++ ")"
     | none => "") ++ "\n" ++
  r.description ++ "\n" ++
  (match r.phone with
   | some p => "phone " ++ p ++ "\n"
   | none => "") ++
  (match r.website_url with
   | some w => "web " ++ w ++ "\n"
   | none => "") ++
  (match r.email with
   | some e => "email " ++ e ++ "\n"
   | none => "") ++
  (if r.tags.length > 0 then "tags " ++ String.intercalate ", " r.tags ++ "\n" else "") ++
  "\n"

/-- `formatResourcesForResponse` (knowledgeService.js lines 144-171). -/
def formatResourcesForResponse (resources : List Resource) (context : String) : String :=
  if resources.isEmpty then noResourcesFallbackText
  else
    (if context != "" then context ++ "\n\n" else "") ++
    "Here are some resources that might help:\n\n" ++
    String.join (resources.map formatResource) ++
    "Remember, you're not alone and support is available. Is there anything specific you'd like to know more about?"

/-- The invariant every user-facing query result satisfies. -/
def queryResultInvariant (result : List Resource) (lim : Nat) : Prop :=
  (∀ r ∈ result, r.is_active = true) ∧
  result.Pairwise (fun a b => b.priority ≤ a.priority) ∧
  result.length ≤ lim

/-!
Session store and dialogue-script state (server.js lines 532-576, 614-629).

The JavaScript `session.progress` object is an open string-keyed bag whose
sub-keys are owned by the individual dialogue scripts; it is embedded as a
record with one field per sub-key the source ever writes, where an absent
key is `none` (for scalar keys) or `[]` (for object/array keys, matching the
lazy `= {}` / `= []` initialisation in the source).  String-keyed sub-objects
(`responses`, `journalEntries`, `morningEntries`, `eveningEntries`) are
association lists updated by `setEntry`.
-/

/-- JavaScript object property assignment on a string-keyed map. -/
def setEntry : List (String × String) → String → String → List (String × String)
  | [], k, v => [(k, v)]
  | (k', v') :: rest, k, v =>
    if k' = k then (k, v) :: rest else (k', v') :: setEntry rest k v

/-- JavaScript object property read on a string-keyed map. -/
def lookupEntry : List (String × String) → String → Option String
  | [], _ => none
  | (k', v) :: rest, k => if k' = k then some v else lookupEntry rest k

/-- Template interpolation of a possibly-missing property: JavaScript renders
a missing property as the string `undefined`. -/
def entryOrUndefined (l : List (String × String)) (k : String) : String :=
  (lookupEntry l k).getD "undefined"

/-- The per-session `progress` bag.  Every field the dialogue scripts write is
present; a field the current script has not written holds its default. -/
structure Progress where
  completedSections : List String := []
  currentSection : Option String := none
  responses : List (String × String) := []
  journalEntries : List (String × String) := []
  currentRitual : Option String := none
  morningStep : Option String := none
  morningEntries : List (String × String) := []
  eveningStep : Option String := none
  eveningEntries : List (String × String) := []
  problemDescription : Option String := none
  selectedModel : Option String := none
deriving DecidableEq

/-- One entry of the process-wide `userSessions` map (server.js lines 620-627).
Timestamps are abstract instants (`Nat`). -/
structure Session where
  id : String
  currentService : Option String := none
  currentStep : Option String := none
  progress : Progress := {}
  startedAt : Nat
  lastActivity : Nat
deriving DecidableEq

/-- The process-wide `userSessions` map (server.js line 532). -/
def Store : Type := String → Option Session

/-- `userSessions.set(sessionId, session)`. -/
def setSession (st : Store) (sessionId : String) (s : Session) : Store :=
  fun k => if k = sessionId then some s else st k

/-- The session created on first contact (server.js lines 621-626). -/
def freshSession (sessionId : String) (now : Nat) : Session :=
  { id := sessionId, progress := {}, startedAt := now, lastActivity := now }

/-- `userContext?.session_id || 'default'` (server.js line 617): a missing or
empty session id falls back to the literal key `default`. -/
def sessionKeyOf (userContext : Option String) : String :=
  match userContext with
  | some sid => if sid = "" then "default" else sid
  | none => "default"

/-- The navigation check repeated at the top of every continuation handler
(server.js lines 877, 962, 1052, 1373). -/
def wantsMainMenu (lowerMessage : String) : Bool :=
  jsIncludes lowerMessage "main menu" || jsIncludes lowerMessage "services" ||
  jsIncludes lowerMessage "start over"

/-- The sentinel reply a handler returns to signal a reset to the main menu. -/
def navigateToMainMenu : String := "navigate-to-main-menu"

/-- One entry of `WELLNESS_SECTIONS` (server.js lines 533-576). -/
structure WellnessSection where
  id : String
  name : String
  description : String
  questions : List String
  assessmentPrompt : String
deriving DecidableEq

/-- `WELLNESS_SECTIONS` (server.js lines 533-576). -/
def WELLNESS_SECTIONS : List WellnessSection :=
  [{ id := "persona-snapshot",
     name := "Personal Snapshot",
     description := "Understanding your current identity and life situation",
     questions := ["How would you describe yourself in 3 words?", "What are your core values?", "What brings you the most joy?"],
     assessmentPrompt := "Tell me about yourself - your background, current situation, and what you value most in life. This helps me understand your unique perspective as we build your wellness plan." },
   { id := "wellness-domains",
     name := "Wellness Domains Inventory",
     description := "Mapping your wellness across key life areas",
     questions := ["Rate your satisfaction (1-10) in: Physical Health, Mental Health, Relationships, Career, Spirituality, Recreation"],
     assessmentPrompt := "Let's assess your current wellness across different life domains. Rate each area 1-10 and share what's working well or challenging: Physical Health, Mental Health, Relationships, Career/Work, Spirituality/Purpose, Recreation/Fun." },
   { id := "current-state-audit",
     name := "Current State Audit",
     description := "Honest assessment of where you are now",
     questions := ["What habits support your wellbeing?", "What habits undermine your goals?", "What patterns do you notice?"],
     assessmentPrompt := "Let's take an honest look at your current habits and patterns. What daily/weekly habits support your wellbeing? What habits might be holding you back? What patterns do you notice in your behavior?" },
   { id := "aspirational-vision",
     name := "Aspirational Vision",
     description := "Creating a compelling future vision",
     questions := ["What would your ideal life look like?", "How would you feel in this ideal state?", "What would be different about your daily experience?"],
     assessmentPrompt := "Imagine your ideal life 1 year from now. What would it look like? How would you feel day-to-day? What would be different about your relationships, work, health, and overall experience?" },
   { id := "gap-analysis",
     name := "Gap Analysis",
     description := "Identifying the bridge between current and desired state",
     questions := ["What's the biggest gap between where you are and where you want to be?", "What obstacles do you anticipate?"],
     assessmentPrompt := "Looking at where you are now versus your ideal vision, what are the main gaps? What would need to change? What obstacles or challenges do you anticipate?" },
   { id := "motivation-mapping",
     name := "Motivation Mapping",
     description := "Understanding your deepest drivers for change",
     questions := ["Why is this change important to you?", "What will happen if you don't make changes?", "What will happen if you do?"],
     assessmentPrompt := "Let's explore your motivation. Why is creating these changes important to you? What might happen if you continue on your current path? What could happen if you make the changes you want?" }]

/-- One entry of `MENTAL_MODELS` (server.js lines 577-613). -/
structure MentalModel where
  id : String
  name : String
  description : String
  application : String
  questions : List String
deriving DecidableEq

/-- `MENTAL_MODELS[0]` (server.js lines 578-584). -/
def firstPrinciplesModel : MentalModel :=
  { id := "first-principles",
    name := "First Principles Thinking",
    description := "Break down complex problems to fundamental truths",
    application := "Strip away assumptions and build understanding from the ground up",
    questions := ["What do we know to be absolutely true about this situation?", "What assumptions am I making?", "If I had to explain this to someone with no context, what are the basic facts?"] }

/-- `MENTAL_MODELS[1]` (server.js lines 585-591). -/
def inversionModel : MentalModel :=
  { id := "inversion",
    name := "Inversion",
    description := "Think backwards from the desired outcome",
    application := "Consider what you want to avoid, then work backwards",
    questions := ["What would failure look like in this situation?", "What should I absolutely avoid doing?", "If I wanted the opposite outcome, what would I do?"] }

/-- `MENTAL_MODELS[2]` (server.js lines 592-598). -/
def occamsRazorModel : MentalModel :=
  { id := "occams-razor",
    name := "Occam's Razor",
    description := "The simplest explanation is usually correct",
    application := "Look for the most straightforward solution first",
    questions := ["What's the simplest explanation for this problem?", "Am I overcomplicating this?", "What would the most direct solution be?"] }

/-- `MENTAL_MODELS[3]` (server.js lines 599-605). -/
def circleOfControlModel : MentalModel :=
  { id := "circle-of-control",
    name := "Circle of Control",
    description := "Focus energy on what you can actually influence",
    application := "Separate controllable factors from uncontrollable ones",
    questions := ["What aspects of this situation can I directly control?", "What is completely outside my influence?", "Where should I focus my energy?"] }

/-- `MENTAL_MODELS[4]` (server.js lines 606-612). -/
def secondOrderThinkingModel : MentalModel :=
  { id := "second-order-thinking",
    name := "Second-Order Thinking",
    description := "Consider the consequences of consequences",
    application := "Think beyond immediate effects to long-term implications",
    questions := ["If I do X, what happens next?", "And then what happens after that?", "What are the unintended consequences?"] }

/-- `MENTAL_MODELS` (server.js lines 577-613). -/
def MENTAL_MODELS : List MentalModel :=
  [firstPrinciplesModel, inversionModel, occamsRazorModel, circleOfControlModel,
   secondOrderThinkingModel]

/-- `startWellnessCoaching` (server.js lines 853-873): the welcome text ending
in the first section's assessment prompt. -/
def startWellnessCoaching : String :=
  "**Welcome to Wellness & Habit Coaching**\n\nI'm excited to guide you through a comprehensive wellness assessment and planning process. This will help us create a personalized plan for sustainable habit change and holistic wellbeing.\n\n**What we'll explore together:**\nPersonal snapshot and values\nWellness domains assessment\nCurrent state audit\nAspirational vision creation\nGap analysis\nMotivation mapping\n\nThis is a journey of self-discovery that honors your unique experience as a Black queer man. We'll take it step by step, and you can pause or revisit any section.\n\n**Let's begin with your Personal Snapshot:**\n\n" ++
  (WELLNESS_SECTIONS.head?.map (fun s => s.assessmentPrompt)).getD "undefined" ++
  "\n\nTake your time - there are no wrong answers, only your authentic truth."

/-- `generateWellnessSummary` (server.js lines 915-938); the source takes the
session but interpolates nothing from it, so the reply is a fixed text. -/
def generateWellnessSummary (_session : Session) : String :=
  "**Wellness Assessment Complete!**\n\nCongratulations! You've completed all six sections of your wellness assessment. This is a significant step toward creating positive change in your life.\n\n**Your Wellness Journey Summary:**\nPersonal values and identity explored\nWellness domains assessed across key life areas\nCurrent habits and patterns identified\nAspirational vision created\nGaps and obstacles mapped\nCore motivations clarified\n\n**Next Steps:**\nBased on your responses, I can help you:\n- Create specific, actionable habit goals\n- Develop implementation strategies\n- Design accountability systems\n- Connect you with relevant community resources\n\nWould you like me to analyze your responses and suggest priority areas for habit development? Or would you prefer to explore another service?\n\n*Type \"analyze my wellness assessment\" to get personalized recommendations, or \"main menu\" to see all services.*"

/-- The advance-to-next-section reply of `handleWellnessCoaching`
(server.js lines 899-910). -/
def sectionCompleteText (currentSection nextSection : WellnessSection)
    (completedCount : Nat) : String :=
  "**" ++ currentSection.name ++ " Complete**\n\nThank you for sharing that insight. You're building a strong foundation for your wellness journey.\n\n---\n\n**Next: " ++ nextSection.name ++ "**\n*" ++ nextSection.description ++ "*\n\n" ++ nextSection.assessmentPrompt ++ "\n\n**Progress:** " ++ toString completedCount ++ "/" ++ toString WELLNESS_SECTIONS.length ++ " sections completed"

/-- `handleWellnessCoaching` (server.js lines 874-914). -/
def handleWellnessCoaching (message : String) (session : Session) : String × Session :=
  let lowerMessage := jsToLower message
  if wantsMainMenu lowerMessage then (navigateToMainMenu, session)
  else
    match session.progress.currentSection with
    | none => (generateWellnessSummary session, session)
    | some cid =>
      match WELLNESS_SECTIONS.find? (fun s => s.id == cid) with
      | none => (generateWellnessSummary session, session)
      | some currentSection =>
      let progress1 := { session.progress with
        responses := setEntry session.progress.responses cid message,
        completedSections :=
          if session.progress.completedSections.contains cid then
            session.progress.completedSections
          else session.progress.completedSections ++ [cid] }
      let currentIndex := WELLNESS_SECTIONS.findIdx (fun s => s.id == cid)
      match WELLNESS_SECTIONS.get? (currentIndex + 1) with
      | some nextSection =>
        let progress2 := { progress1 with currentSection := some nextSection.id }
        (sectionCompleteText currentSection nextSection progress2.completedSections.length,
         { session with progress := progress2 })
      | none =>
        (generateWellnessSummary { session with progress := progress1 },
         { session with progress := progress1 })

/-- `startProblemSolving` (server.js lines 940-958). -/
def startProblemSolving : String :=
  "**Strategic Problem Solving**\n\nI'll help you tackle complex challenges using proven mental models and frameworks. This approach will give you tools to think more clearly and find effective solutions.\n\n**Available Mental Models:**\n**First Principles** - Break problems down to fundamental truths\n**Inversion** - Work backwards from desired outcomes\n**Occam's Razor** - Find the simplest, most likely solutions\n**Circle of Control** - Focus energy where you have influence\n**Second-Order Thinking** - Consider long-term consequences\n\n**To get started:**\n1. Briefly describe the problem or challenge you're facing\n2. I'll help you select the most relevant mental model(s)\n3. We'll work through the framework together\n\nWhat challenge would you like to work on? Share as much or as little detail as you're comfortable with."

/-- JavaScript `s.substring(0, n)` for the ASCII texts involved. -/
def jsSubstring (s : String) (n : Nat) : String :=
  String.mk (s.toList.take n)

/-- `selectMentalModel` (server.js lines 981-1009): echo the captured problem
and recommend models whose trigger words occur in it. -/
def selectMentalModel (problemDescription : String) : String :=
  let problem := jsToLower problemDescription
  let recommendations :=
    (if jsIncludes problem "complex" || jsIncludes problem "complicated" || jsIncludes problem "overwhelm" then
      ["**First Principles** - Break this down to basic components"] else []) ++
    (if jsIncludes problem "goal" || jsIncludes problem "outcome" || jsIncludes problem "result" then
      ["**Inversion** - Work backwards from your desired outcome"] else []) ++
    (if jsIncludes problem "choice" || jsIncludes problem "option" || jsIncludes problem "decision" then
      ["**Occam's Razor** - Find the simplest solution"] else []) ++
    (if jsIncludes problem "stress" || jsIncludes problem "worry" || jsIncludes problem "control" then
      ["**Circle of Control** - Focus on what you can influence"] else []) ++
    (if jsIncludes problem "consequence" || jsIncludes problem "impact" || jsIncludes problem "future" then
      ["**Second-Order Thinking** - Consider long-term effects"] else [])
  let modelList := String.intercalate "\n"
    (MENTAL_MODELS.map (fun model => "**" ++ model.name ++ "** - " ++ model.description))
  "**Problem Captured:** \"" ++ jsSubstring problemDescription 100 ++
  (if problemDescription.length > 100 then "..." else "") ++
  "\"\n\n**Recommended Mental Models:**\n" ++
  (if recommendations.length > 0 then String.intercalate "\n" recommendations
   else "All models could be helpful for this challenge.") ++
  "\n\n**All Available Models:**\n" ++ modelList ++
  "\n\nWhich mental model resonates with you? Just tell me the name (e.g., \"First Principles\" or \"Circle of Control\")."

/-- `applyMentalModel` (server.js lines 1010-1025): the selected model's fixed
question frame with the problem text re-interpolated. -/
def applyMentalModel (model : MentalModel) (problemDescription : String) : String :=
  "**Applying " ++ model.name ++ "**\n\n**Your Challenge:** \"" ++
  jsSubstring problemDescription 150 ++
  (if problemDescription.length > 150 then "..." else "") ++
  "\"\n\n**" ++ model.name ++ " Framework:**\n*" ++ model.application ++
  "*\n\n**Let's work through this step by step:**\n\n" ++
  String.intercalate "\n\n"
    (model.questions.enum.map (fun p => toString (p.1 + 1) ++ ". " ++ p.2)) ++
  "\n\nTake your time with each question. Answer them one by one, and I'll help you synthesize the insights into actionable next steps.\n\nStart with question 1: **" ++
  (model.questions.head?.getD "undefined") ++ "**"

/-- `autoSelectMentalModel` (server.js lines 1026-1030): the silent default to
First Principles when no model name was recognised. -/
def autoSelectMentalModel (_userResponse problemDescription : String) : String :=
  match MENTAL_MODELS.find? (fun m => m.id == "first-principles") with
  | some firstPrinciples => applyMentalModel firstPrinciples problemDescription
  | none => ""

/-- JavaScript `model.id.replace('-', ' ')`: with a string pattern, `replace`
substitutes only the first occurrence of the hyphen. -/
def replaceFirstHyphenChars : List Char → List Char
  | [] => []
  | c :: cs => if c = '-' then ' ' :: cs else c :: replaceFirstHyphenChars cs

/-- JavaScript `model.id.replace('-', ' ')` on strings. -/
def replaceFirstHyphen (s : String) : String :=
  String.mk (replaceFirstHyphenChars s.toList)

/-- `handleProblemSolving` (server.js lines 959-980). -/
def handleProblemSolving (message : String) (session : Session) : String × Session :=
  let lowerMessage := jsToLower message
  if wantsMainMenu lowerMessage then (navigateToMainMenu, session)
  else
    match session.progress.problemDescription with
    | none =>
      (selectMentalModel message,
       { session with progress := { session.progress with problemDescription := some message } })
    | some problemDescription =>
      match MENTAL_MODELS.find? (fun model =>
          jsIncludes lowerMessage (replaceFirstHyphen model.id) ||
          jsIncludes lowerMessage (jsToLower model.name)) with
      | some selectedModel =>
        (applyMentalModel selectedModel problemDescription,
         { session with progress := { session.progress with selectedModel := some selectedModel.id } })
      | none => (autoSelectMentalModel message problemDescription, session)

/-- `startTransformationalJournaling` (server.js lines 1032-1048). -/
def startTransformationalJournaling : String :=
  "**Welcome to Transformational Journaling**\n\nI'm your guide for daily transformational journaling rituals designed to rewire thought patterns and propel you toward your highest potential. This isn't just writing - it's intentional daily evolution through structured morning and evening practices.\n\n**What makes this transformational:**\n**Morning Rituals** - Vision setting, resistance reframing, affirmations, gratitude, outcome visualization\n**Evening Rituals** - Wins celebration, lesson extraction, growth recognition, tomorrow's planning\n**Daily Integration** - Each session builds on the last, creating compound growth\n\n**To begin, I need to know:**\nAre you starting a **morning ritual** or an **evening ritual**?\n\n*This matters because each ritual has different focuses and energy. Morning rituals prime your day with intention, while evening rituals process and prepare for tomorrow.*\n\nJust say \"morning\" or \"evening\" to begin your transformational journey."

/-- The re-prompt when the time-identification step saw neither \"morning\"
nor \"evening\" (server.js lines 1068-1073). -/
def chooseRitualPrompt : String :=
  "I need to know if you're starting a **morning** or **evening** journaling ritual.\n\n**Morning** - Set intentions, vision, and mindset for the day ahead\n**Evening** - Reflect on wins, lessons, and prepare for tomorrow\n\nWhich ritual would you like to begin?"

/-- `startMorningRitual` (server.js lines 1087-1102). -/
def startMorningRitual : String :=
  "**Morning Transformational Ritual**\n\nLet's begin with grounding and intention. This ritual will prime your mindset and energy for an intentional, powerful day.\n\n**Step 1: Breathwork & Grounding**\n\nTake a moment to breathe deeply. I want you to take 3 slow, intentional breaths:\n- Inhale for 4 counts\n- Hold for 4 counts\n- Exhale for 6 counts\n\nOnce you've done this, simply type \"ready\" and we'll move to setting your vision for the day.\n\n*This isn't rushed - take the time you need to center yourself.*"

/-- The vision prompt shown once the breathwork gate sees \"ready\"
(server.js lines 1113-1121). -/
def visionOfTheDayText : String :=
  "**Vision of the Day**\n\nWhat is the ONE priority today that will truly move the needle in your life?\n\nThis isn't about a long to-do list. I want you to identify the single most important thing that, if accomplished, would make you feel proud and aligned with your growth.\n\n*Example: \"Complete the first draft of my business proposal because it moves me closer to financial independence\" or \"Have an honest conversation with my partner about our future because authentic communication strengthens our relationship.\"*\n\nWhat's your needle-moving priority for today?"

/-- The blocking reply of the breathwork gate for any message without
\"ready\" (server.js lines 1124-1126). -/
def breathworkReminderText : String :=
  "Take your time with the breathwork. When you've completed 3 intentional breaths (inhale 4, hold 4, exhale 6), type \"ready\" to continue.\n\nRemember: This ritual is about depth over speed. Let yourself truly center before we proceed."

/-- The reframe-resistance prompt (server.js lines 1131-1141). -/
def reframeResistanceText : String :=
  "**Reframe Resistance**\n\nNow that you've identified your priority, let's address what might get in the way.\n\nWhat's one barrier, fear, or resistance you anticipate facing today as you work toward that priority?\n\nOnce you share that, I'll help you reframe it as an opportunity for growth.\n\n*Example: \"I'm afraid people will judge my business idea\" or \"I tend to avoid difficult conversations\" or \"I get distracted by social media when I need to focus.\"*\n\nWhat resistance or barrier do you anticipate?"

/-- The affirmations prompt, interpolating the barrier just stored
(server.js lines 1146-1159). -/
def reframedOpportunityText (barrier : String) : String :=
  "**Reframed as Opportunity**\n\n*Your barrier:* \"" ++ barrier ++ "\"\n\n**Reframe:** This barrier is actually an invitation to strengthen a crucial skill. Every time you face this resistance and move through it, you're building the exact capability you need for your liberation and growth.\n\n**Now, create 2-3 mission-anchored affirmations** that speak to your authentic power and the person you're becoming.\n\n*These should feel true and inspiring, not fake or forced. Examples:*\n- \"I trust my voice and my vision deserves to be heard\"\n- \"I choose courage over comfort in service of my growth\"\n- \"My authentic self is my greatest strength\"\n\nWhat are your 2-3 affirmations for today?"

/-- The gratitude prompt (server.js lines 1163-1173). -/
def gratitudeWithPurposeText : String :=
  "**Gratitude with Purpose**\n\nShare 2-3 specific things you're grateful for today AND explain why they matter to your growth or wellbeing.\n\n*This isn't generic gratitude - I want you to connect each thing to its deeper significance in your life.*\n\nWhat are you specifically grateful for today and why do they matter?"

/-- The visualization prompt (server.js lines 1177-1189). -/
def visualizeSuccessText : String :=
  "**Visualize Success**\n\nNow, paint a vivid picture of how it looks and feels when you successfully complete your priority today.\n\nBe specific about:\n- What you'll see\n- How you'll feel in your body\n- What thoughts will be running through your mind\n- How this success connects to your larger vision\n\nDescribe your success in vivid detail:"

/-- `generateMorningSummary` (server.js lines 1318-1341), interpolating the
collected morning entries. -/
def generateMorningSummary (session : Session) : String :=
  let entries := session.progress.morningEntries
  "**Morning Ritual Complete!**\n\nYou've set powerful intentions for your day. Here's your transformational blueprint:\n\n**Your Vision:** " ++
  entryOrUndefined entries "vision" ++
  "\n\n**Barrier Reframed:** Your challenges are growth opportunities\n\n**Your Affirmations:** " ++
  entryOrUndefined entries "affirmations" ++
  "\n\n**Gratitude Foundation:** " ++ entryOrUndefined entries "gratitude" ++
  "\n\n**Success Visualization:** " ++ entryOrUndefined entries "visualization" ++
  "\n\n**Your mindset is primed for an intentional, powerful day.** Carry these intentions with you, and remember: you've already done the inner work to succeed.\n\n*This evening, return for your Evening Ritual to process today's growth and prepare for tomorrow.*\n\n**Ready to make today meaningful? Your transformation starts now.**\n\nType \"main menu\" anytime to explore other I.V.O.R. services."

/-- `handleMorningRitual` (server.js lines 1103-1196): a switch on
`progress.morningStep`.  The source's lazy initialisation of
`progress.morningEntries` to an empty object is implicit here because the
embedded field defaults to the empty map. -/
def handleMorningRitual (message : String) (session : Session) : String × Session :=
  let lowerMessage := jsToLower message
  let currentStep := session.progress.morningStep
  if currentStep = some "breathwork" then
    if jsIncludes lowerMessage "ready" then
      (visionOfTheDayText,
       { session with progress := { session.progress with morningStep := some "vision" } })
    else (breathworkReminderText, session)
  else if currentStep = some "vision" then
    (reframeResistanceText,
     { session with progress := { session.progress with
         morningEntries := setEntry session.progress.morningEntries "vision" message,
         morningStep := some "reframe" } })
  else if currentStep = some "reframe" then
    (reframedOpportunityText message,
     { session with progress := { session.progress with
         morningEntries := setEntry session.progress.morningEntries "barrier" message,
         morningStep := some "affirmations" } })
  else if currentStep = some "affirmations" then
    (gratitudeWithPurposeText,
     { session with progress := { session.progress with
         morningEntries := setEntry session.progress.morningEntries "affirmations" message,
         morningStep := some "gratitude" } })
  else if currentStep = some "gratitude" then
    (visualizeSuccessText,
     { session with progress := { session.progress with
         morningEntries := setEntry session.progress.morningEntries "gratitude" message,
         morningStep := some "visualization" } })
  else if currentStep = some "visualization" then
    let updated := { session with progress := { session.progress with
        morningEntries := setEntry session.progress.morningEntries "visualization" message } }
    (generateMorningSummary updated, updated)
  else (startMorningRitual, session)

/-- `startEveningRitual` (server.js lines 1198-1219). -/
def startEveningRitual : String :=
  "**Evening Transformational Ritual**\n\nTime to honor your day, extract wisdom, and set yourself up for tomorrow's success. This ritual transforms daily experiences into lasting growth.\n\n**Step 1: Celebrate Your Wins**\n\nLet's start by acknowledging your victories - big and small. Every step forward matters.\n\n**What were your top 3 wins today?**\n\n*Remember: Progress, not perfection. Even \"I got out of bed despite feeling low\" counts as a win.*\n\nWhat are your 3 wins from today?"

/-- The lesson-extraction prompt (server.js lines 1229-1239). -/
def extractTheLessonText : String :=
  "**Extract the Lesson**\n\nNow, think about a challenge or setback you faced today. This isn't about dwelling on what went wrong - it's about mining wisdom from the experience.\n\n**Describe one setback or challenge from today, and what lesson you can extract from it.**\n\nWhat challenge did you face and what can you learn from it?"

/-- The growth-recognition prompt (server.js lines 1243-1256). -/
def recognizeGrowthText : String :=
  "**Recognize Your Growth**\n\nToday, you strengthened something important about yourself.\n\n**What skill, mindset, or emotional capacity did you develop or strengthen today?**\n\n*Even facing discomfort builds your resilience muscle. Even asking for help builds your vulnerability strength.*\n\nWhat did you strengthen about yourself today?"

/-- The tomorrow impact-task prompt (server.js lines 1260-1269). -/
def tomorrowImpactText : String :=
  "**Tomorrow's Big Three: Impact Task**\n\nNow let's design tomorrow for success. We'll identify three key tasks using a strategic framework.\n\n**First: Your IMPACT task**\nWhat's the one task tomorrow that, if completed, would create the biggest positive impact on your goals or wellbeing? This should be meaningful, not just urgent.\n\nWhat's your highest-impact task for tomorrow?"

/-- The tomorrow leverage-task prompt (server.js lines 1273-1280). -/
def tomorrowLeverageText : String :=
  "**Tomorrow's Big Three: Leverage Task**\n\n**Second: Your LEVERAGE task**\nWhat task could you do tomorrow that would make other things easier or more efficient? This is about working smarter, not harder.\n\nWhat's your leverage task for tomorrow?"

/-- The tomorrow reality-check prompt (server.js lines 1284-1291). -/
def tomorrowRealityText : String :=
  "**Tomorrow's Big Three: Reality Check Task**\n\n**Third: Your REALITY CHECK task**\nWhat's one essential task that simply needs to get done? This might not be exciting, but it's necessary and achievable.\n\nWhat's your reality check task for tomorrow?"

/-- The starter-actions prompt, interpolating the three stored tasks
(server.js lines 1295-1310). -/
def starterActionsText (impactTask leverageTask realityTask : String) : String :=
  "**Starter Actions**\n\nFor each of your Big Three tasks, identify the very first small action you'll take to get started:\n\n**Impact Task:** \"" ++ impactTask ++ "\"\n*First action:*\n\n**Leverage Task:** \"" ++ leverageTask ++ "\"\n*First action:*\n\n**Reality Task:** \"" ++ realityTask ++ "\"\n*First action:*\n\n*Keep these actions small and specific.*\n\nList your three starter actions:"

/-- `generateEveningSummary` (server.js lines 1342-1368). -/
def generateEveningSummary (session : Session) : String :=
  let entries := session.progress.eveningEntries
  "**Evening Ritual Complete!**\n\nYou've transformed today's experiences into wisdom and set yourself up for tomorrow's success.\n\n**Today's Wins:** " ++
  entryOrUndefined entries "wins" ++
  "\n\n**Lesson Learned:** " ++ entryOrUndefined entries "lesson" ++
  "\n\n**Growth Achieved:** " ++ entryOrUndefined entries "growth" ++
  "\n\n**Tomorrow's Big Three:**\n- **Impact:** " ++ entryOrUndefined entries "impactTask" ++
  "\n- **Leverage:** " ++ entryOrUndefined entries "leverageTask" ++
  "\n- **Reality:** " ++ entryOrUndefined entries "realityTask" ++
  "\n\n**Your Starter Actions:** " ++ entryOrUndefined entries "starterActions" ++
  "\n\n**You've honored today's journey and intentionally designed tomorrow.** This is how daily transformation compounds into life-changing growth.\n\nSleep well knowing you're building the life you want, one intentional day at a time.\n\nType \"main menu\" to explore other I.V.O.R. services."

/-- `handleEveningRitual` (server.js lines 1220-1317): a switch on
`progress.eveningStep`; it performs no navigation or keyword check. -/
def handleEveningRitual (message : String) (session : Session) : String × Session :=
  let currentStep := session.progress.eveningStep
  if currentStep = some "wins" then
    (extractTheLessonText,
     { session with progress := { session.progress with
         eveningEntries := setEntry session.progress.eveningEntries "wins" message,
         eveningStep := some "lesson" } })
  else if currentStep = some "lesson" then
    (recognizeGrowthText,
     { session with progress := { session.progress with
         eveningEntries := setEntry session.progress.eveningEntries "lesson" message,
         eveningStep := some "growth" } })
  else if currentStep = some "growth" then
    (tomorrowImpactText,
     { session with progress := { session.progress with
         eveningEntries := setEntry session.progress.eveningEntries "growth" message,
         eveningStep := some "tomorrow-impact" } })
  else if currentStep = some "tomorrow-impact" then
    (tomorrowLeverageText,
     { session with progress := { session.progress with
         eveningEntries := setEntry session.progress.eveningEntries "impactTask" message,
         eveningStep := some "tomorrow-leverage" } })
  else if currentStep = some "tomorrow-leverage" then
    (tomorrowRealityText,
     { session with progress := { session.progress with
         eveningEntries := setEntry session.progress.eveningEntries "leverageTask" message,
         eveningStep := some "tomorrow-reality" } })
  else if currentStep = some "tomorrow-reality" then
    let entries := setEntry session.progress.eveningEntries "realityTask" message
    (starterActionsText (entryOrUndefined entries "impactTask")
       (entryOrUndefined entries "leverageTask") (entryOrUndefined entries "realityTask"),
     { session with progress := { session.progress with
         eveningEntries := entries, eveningStep := some "starter-actions" } })
  else if currentStep = some "starter-actions" then
    let updated := { session with progress := { session.progress with
        eveningEntries := setEntry session.progress.eveningEntries "starterActions" message } }
    (generateEveningSummary updated, updated)
  else (startEveningRitual, session)

/-- `handleTransformationalJournaling` (server.js lines 1049-1085): the
navigation check, the time-identification branch, then dispatch to the
morning or evening ritual handler. -/
def handleTransformationalJournaling (message : String) (session : Session) : String × Session :=
  let lowerMessage := jsToLower message
  if wantsMainMenu lowerMessage then (navigateToMainMenu, session)
  else if session.currentStep = some "time-identification" ∨ session.progress.currentRitual = none then
    if jsIncludes lowerMessage "morning" then
      (startMorningRitual,
       { session with progress := { session.progress with
           currentRitual := some "morning", morningStep := some "breathwork" } })
    else if jsIncludes lowerMessage "evening" then
      (startEveningRitual,
       { session with progress := { session.progress with
           currentRitual := some "evening", eveningStep := some "wins" } })
    else (chooseRitualPrompt, session)
  else if session.progress.currentRitual = some "morning" then
    handleMorningRitual message session
  else if session.progress.currentRitual = some "evening" then
    handleEveningRitual message session
  else (startTransformationalJournaling, session)

/-- `generateHealthTopicsMenu` (server.js lines 1398-1418). -/
def generateHealthTopicsMenu : String :=
  "**Health & Wellbeing Guidance**\n\nI'm here to provide evidence-based health advice specifically for Black queer men, incorporating insights from specialized resources and addressing unique community health needs.\n\n**What health topic would you like guidance on?**\n\n**MENTAL HEALTH** - Depression, anxiety, community-specific mental health support\n**SEXUAL HEALTH** - STI prevention, HIV/PrEP information, sexual wellbeing\n**PHYSICAL HEALTH** - Fitness, nutrition, preventive care for our community\n**HEALTHCARE NAVIGATION** - Finding LGBT+ friendly providers, advocating for yourself\n**SUBSTANCE & WELLBEING** - Harm reduction, chemsex awareness, healthy relationships with substances\n**DAILY JOY & WELLNESS** - Humor, entertainment, and mental health boosts\n\nSimply tell me which area interests you, or ask a specific health question.\n\n*Remember: This guidance complements but doesn't replace professional medical advice. Always consult healthcare providers for personalized medical care.*"

/-- `generateMentalHealthAdvice` (server.js lines 1419-1454); fixed advice
text, abridged to its opening section. -/
def generateMentalHealthAdvice : String :=
  "**MENTAL HEALTH SUPPORT FOR BLACK QUEER MEN**\n\n**Understanding Our Unique Challenges:**\n- Black queer men face higher rates of depression, anxiety, and suicidal ideation\n- Intersection of racism, homophobia, and minority stress creates additional mental health pressures\n- Community resilience and chosen family are crucial protective factors"

/-- `generateSexualHealthAdvice` (server.js lines 1455-1495); abridged. -/
def generateSexualHealthAdvice : String :=
  "**SEXUAL HEALTH & WELLBEING**\n\n**Comprehensive Sexual Health for Black Queer Men:**\n\n**HIV/STI Prevention:**\n- **PrEP (Pre-Exposure Prophylaxis)** - Highly effective HIV prevention\n- Regular STI testing every 3 months for sexually active individuals"

/-- `generatePhysicalHealthAdvice` (server.js lines 1496-1541); abridged. -/
def generatePhysicalHealthAdvice : String :=
  "**PHYSICAL HEALTH & FITNESS**\n\n**Holistic Physical Wellness for Black Queer Men:**\n\n**Fitness & Movement:**\n- Find movement that brings you joy - dancing, walking, sports, gym"

/-- `generateHealthcareNavigationAdvice` (server.js lines 1542-1597);
abridged. -/
def generateHealthcareNavigationAdvice : String :=
  "**NAVIGATING HEALTHCARE AS A BLACK QUEER MAN**\n\n**Finding Affirming Healthcare:**\n\n**Research Providers:**\n- Ask: \"Do you have experience with LGBTQ+ patients?\""

/-- `generateSubstanceHealthAdvice` (server.js lines 1598-1656); abridged. -/
def generateSubstanceHealthAdvice : String :=
  "**SUBSTANCE USE & HARM REDUCTION**\n\n**Understanding Substance Use in Our Community:**\n\n**Community Context:**\n- LGBTQ+ individuals have higher rates of substance use"

/-- `generateJoyAndWellnessAdvice` (server.js lines 1657-1714); abridged. -/
def generateJoyAndWellnessAdvice : String :=
  "**DAILY JOY & WELLNESS BOOSTS**\n\n**LAUGHTER IS MEDICINE - ESPECIALLY FOR US!**\n\n**DAILY JOY PRACTICES:**\n- **Meme Therapy**: Follow Black queer content creators who make you laugh"

/-- `handleHealthAdvice` (server.js lines 1370-1397): a flat, stateless topic
dispatcher. -/
def handleHealthAdvice (message : String) (session : Session) : String × Session :=
  let lowerMessage := jsToLower message
  if wantsMainMenu lowerMessage then (navigateToMainMenu, session)
  else if jsIncludes lowerMessage "mental health" || jsIncludes lowerMessage "depression" ||
      jsIncludes lowerMessage "anxiety" then (generateMentalHealthAdvice, session)
  else if jsIncludes lowerMessage "sexual health" || jsIncludes lowerMessage "sti" ||
      jsIncludes lowerMessage "hiv" || jsIncludes lowerMessage "prep" then
    (generateSexualHealthAdvice, session)
  else if jsIncludes lowerMessage "physical health" || jsIncludes lowerMessage "fitness" ||
      jsIncludes lowerMessage "exercise" then (generatePhysicalHealthAdvice, session)
  else if jsIncludes lowerMessage "healthcare" || jsIncludes lowerMessage "doctor" ||
      jsIncludes lowerMessage "gp" || jsIncludes lowerMessage "medical" then
    (generateHealthcareNavigationAdvice, session)
  else if jsIncludes lowerMessage "substance" || jsIncludes lowerMessage "alcohol" ||
      jsIncludes lowerMessage "drugs" || jsIncludes lowerMessage "chemsex" then
    (generateSubstanceHealthAdvice, session)
  else if jsIncludes lowerMessage "joy" || jsIncludes lowerMessage "humor" ||
      jsIncludes lowerMessage "entertainment" || jsIncludes lowerMessage "fun" ||
      jsIncludes lowerMessage "laugh" then (generateJoyAndWellnessAdvice, session)
  else (generateHealthTopicsMenu, session)

/-- `generateServiceSelectionResponse` (server.js lines 750-778): the main
menu text, abridged to its opening lines. -/
def generateServiceSelectionResponse : String :=
  "**HEY BEAUTIFUL! I'M I.V.O.R.**\n\nYour Intelligent Virtual Organizing Resource, here to support your Black queer liberation journey with both immediate help and deep coaching.\n\n**NEED QUICK HELP? I'VE GOT YOU:**\n- **MENTAL HEALTH** - Therapy, crisis support, culturally competent resources\n- **HOUSING** - Emergency accommodation, LGBTQ+ friendly options\n- **LEGAL SUPPORT** - Discrimination help, know your rights\n- **COMMUNITY** - Events, connections, chosen family vibes\n- **CRISIS SUPPORT** - 24/7 helplines, immediate safety\n\n**READY FOR DEEP COACHING? CHOOSE YOUR ADVENTURE:**\n\n**WELLNESS & HABIT COACHING** - 15-section personalized wellness plan\n**STRATEGIC PROBLEM SOLVING** - Mental model frameworks for when life gets complicated\n**TRANSFORMATIONAL JOURNALING** - Daily rituals that actually transform your mindset\n\nWhether you need immediate resources or want to dive deep into personal development, I'm here to support your liberation journey. What would be most helpful?"

/-- `generateWelcomeResponse` (server.js lines 779-806): the default welcome
text, abridged to its opening lines. -/
def generateWelcomeResponse : String :=
  "**WELCOME TO I.V.O.R., GORGEOUS!**\n\nI'm your Intelligent Virtual Organizing Resource, specifically designed to support Black queer liberation and empowerment.\n\n**I CAN HELP YOU IN TWO WAYS:**\n\n**QUICK RESOURCE SUPPORT** - When you need help NOW\n\n**COMPREHENSIVE LIFE COACHING** - When you're ready to level up\n\nYour liberation and wellbeing matter deeply. What kind of support would feel most helpful right now?"

/-- The mental-health branch text of `generateCommunityResourceResponse`
(server.js lines 1719-1733); abridged. -/
def mentalHealthResourcesText : String :=
  "**Mental Health & Therapy Resources**\n\nI can connect you with culturally competent mental health support:\n\n- **Mind LGBTQ+** - Free support: 0300 123 3393\n- **Switchboard LGBT+** - 24/7 support: 0300 330 0630"

/-- The general branch text of `generateCommunityResourceResponse`
(server.js lines 1734-1753); abridged. -/
def generalCommunityResourcesText : String :=
  "**COMMUNITY RESOURCES AVAILABLE**\n\n**CONNECT WITH THE BLKOUT COMMUNITY:**\n- **BLKOUT EVENTS** - Community gatherings, workshops, and liberation activities\n\nJust tell me what you need - whether it's immediate resources or structured coaching support!"

/-- `generateCommunityResourceResponse` (server.js lines 1718-1756). -/
def generateCommunityResourceResponse (resourceType : String) : String :=
  if resourceType = "mental-health" then mentalHealthResourcesText
  else if resourceType = "general" then generalCommunityResourcesText
  else generateServiceSelectionResponse

/-- `handleCommunityResources` (server.js lines 1715-1717). -/
def handleCommunityResources (_message : String) (session : Session) : String × Session :=
  (generateCommunityResourceResponse "general", session)

/-- The canned community-events reply (server.js lines 686-701); abridged. -/
def communityEventsText : String :=
  "Connecting with community is powerful! Here are spaces for Black queer men:\n\n- **BLKOUT Community Events** - Check blkout.uk/events\n- **UK Black Pride** - Annual celebration + year-round events\n\nWhich city are you in? I can help you find local QTIPOC spaces and events."

/-- The canned career reply (server.js lines 702-718); abridged. -/
def careerSupportText : String :=
  "Career advancement is key to liberation. Here are supportive resources:\n\n- **Stonewall Workplace Programmes** - LGBTQ+ career support\n- **Black Professionals Network** - Career development\n\nAre you job searching, dealing with workplace issues, or exploring cooperative alternatives?"

/-- The canned immediate-support reply of the second, unreachable
crisis branch (server.js lines 719-737); abridged. -/
def immediateSupportText : String :=
  "**IMMEDIATE SUPPORT AVAILABLE:**\n\n**Crisis Lines:**\n- Samaritans: 116 123 (free, 24/7)\n- LGBT Switchboard: 0300 330 0630\n- Crisis Text Line: Text SHOUT to 85258\n\nYou don't have to face this alone. Would you like me to help you find specific support in your area right now?"

/-- `handleServiceConversation` (server.js lines 808-851): delegate to the
active script's continuation handler and translate the sentinel reply into a
session reset plus the main menu text. -/
def handleServiceConversation (message : String) (session : Session) : String × Session :=
  if session.currentService = some "wellness-coaching" then
    let result := handleWellnessCoaching message session
    if result.1 = navigateToMainMenu then
      (generateServiceSelectionResponse,
       { result.2 with currentService := none, currentStep := none, progress := {} })
    else result
  else if session.currentService = some "problem-solving" then
    let result := handleProblemSolving message session
    if result.1 = navigateToMainMenu then
      (generateServiceSelectionResponse,
       { result.2 with currentService := none, currentStep := none, progress := {} })
    else result
  else if session.currentService = some "transformational-journaling" then
    let result := handleTransformationalJournaling message session
    if result.1 = navigateToMainMenu then
      (generateServiceSelectionResponse,
       { result.2 with currentService := none, currentStep := none, progress := {} })
    else result
  else if session.currentService = some "health-advice" then
    let result := handleHealthAdvice message session
    if result.1 = navigateToMainMenu then
      (generateServiceSelectionResponse,
       { result.2 with currentService := none, currentStep := none, progress := {} })
    else result
  else handleCommunityResources message session

/-- The ordered if/else routing chain of `generateIVORResponse`
(server.js lines 630-747), acting on the current session and producing the
reply plus the updated session object. -/
def routeMessage (db : Db) (message : String) (session : Session) : String × Session :=
  let lowerMessage := jsToLower message
  if session.currentService.isSome then
    handleServiceConversation message session
  else if jsIncludes lowerMessage "health advice" || jsIncludes lowerMessage "health guidance" ||
      jsIncludes lowerMessage "sexual health" || jsIncludes lowerMessage "mental health" ||
      jsIncludes lowerMessage "physical health" || jsIncludes lowerMessage "healthcare" then
    (generateHealthTopicsMenu,
     { session with currentService := some "health-advice", currentStep := some "introduction" })
  else if jsIncludes lowerMessage "wellness" || jsIncludes lowerMessage "habit" then
    (startWellnessCoaching,
     { session with
         currentService := some "wellness-coaching",
         currentStep := some "introduction",
         progress := { completedSections := [], currentSection := some "persona-snapshot" } })
  else if jsIncludes lowerMessage "problem" || jsIncludes lowerMessage "challenge" ||
      jsIncludes lowerMessage "stuck" || jsIncludes lowerMessage "solve" then
    (startProblemSolving,
     { session with currentService := some "problem-solving", currentStep := some "introduction" })
  else if jsIncludes lowerMessage "journal" || jsIncludes lowerMessage "writing" ||
      jsIncludes lowerMessage "reflection" || jsIncludes lowerMessage "ritual" then
    (startTransformationalJournaling,
     { session with
         currentService := some "transformational-journaling",
         currentStep := some "time-identification",
         progress := { journalEntries := [], currentRitual := none } })
  else if jsIncludes lowerMessage "service" || jsIncludes lowerMessage "help with" ||
      jsIncludes lowerMessage "coaching" then
    (generateServiceSelectionResponse, session)
  else if jsIncludes lowerMessage "mental health" || jsIncludes lowerMessage "therapy" ||
      jsIncludes lowerMessage "counseling" then
    (generateCommunityResourceResponse "mental-health", session)
  else if jsIncludes lowerMessage "housing" || jsIncludes lowerMessage "accommodation" ||
      jsIncludes lowerMessage "homeless" then
    (formatResourcesForResponse (getResourcesByCategory db "Housing" 5)
       "Housing security is fundamental to wellbeing. Here are LGBTQ+ friendly housing resources:",
     session)
  else if jsIncludes lowerMessage "legal" || jsIncludes lowerMessage "discrimination" ||
      jsIncludes lowerMessage "rights" then
    (formatResourcesForResponse (getResourcesByCategory db "Legal Aid" 5)
       "I can connect you with legal support that understands intersectional discrimination:",
     session)
  else if jsIncludes lowerMessage "crisis" || jsIncludes lowerMessage "emergency" ||
      jsIncludes lowerMessage "urgent" then
    (formatResourcesForResponse (getCrisisResources db)
       "**IMMEDIATE SUPPORT AVAILABLE** - You are not alone and help is available right now:",
     session)
  else
    let generalSearch :=
      if jsIncludes lowerMessage "help" || jsIncludes lowerMessage "support" ||
          jsIncludes lowerMessage "resource" then
        let resources := searchResources db message 3
        if resources.length > 0 then
          some (formatResourcesForResponse resources "I found some resources that might help:")
        else none
      else none
    match generalSearch with
    | some reply => (reply, session)
    | none =>
      if jsIncludes lowerMessage "community" || jsIncludes lowerMessage "events" ||
          jsIncludes lowerMessage "meetup" then (communityEventsText, session)
      else if jsIncludes lowerMessage "work" || jsIncludes lowerMessage "job" ||
          jsIncludes lowerMessage "career" then (careerSupportText, session)
      else if jsIncludes lowerMessage "crisis" || jsIncludes lowerMessage "emergency" ||
          jsIncludes lowerMessage "urgent" then (immediateSupportText, session)
      else if wantsMainMenu lowerMessage then
        (generateServiceSelectionResponse,
         { session with currentService := none, currentStep := none, progress := {} })
      else (generateWelcomeResponse, session)

/-- `generateIVORResponse` (server.js lines 614-748): look up or create the
session under the caller's key, refresh `lastActivity`, route the message,
and store the updated session back under the same key. -/
def generateIVORResponse (db : Db) (now : Nat) (message : String)
    (userContext : Option String) (sessions : Store) : String × Store :=
  let sessionId := sessionKeyOf userContext
  let base :=
    match sessions sessionId with
    | some s => s
    | none => freshSession sessionId now
  let session := { base with lastActivity := now }
  let result := routeMessage db message session
  (result.1, setSession sessions sessionId result.2)

/-- The core of the `/api/chat` handler (server.js lines 409-438): the
distress short-circuit runs before any session access; otherwise the message
is routed through `generateIVORResponse`. -/
def respond (db : Db) (now : Nat) (message : String) (userContext : Option String)
    (sessions : Store) : String × Store :=
  let distressSignal := detectDistressLevel message
  if distressSignal.immediateResponse then
    (generateEmergencyResponse distressSignal, sessions)
  else generateIVORResponse db now message userContext sessions

/-- Repeated calls into the wellness continuation handler, modelling a user
answering one section per turn; collects each turn's reply. -/
def runWellnessConversation : List String → Session → (List String × Session)
  | [], s => ([], s)
  | m :: ms, s =>
    let r := handleWellnessCoaching m s
    let rest := runWellnessConversation ms r.2
    (r.1 :: rest.1, rest.2)

/-- Convenience accessor for the statically known wellness section list. -/
def wellnessSection (i : Nat) : WellnessSection :=
  (WELLNESS_SECTIONS.get? i).getD
    { id := "", name := "", description := "", questions := [], assessmentPrompt := "" }

/-- The step names `handleMorningRitual` switches on (server.js lines
1109-1195). -/
def morningStepIds : List String :=
  ["breathwork", "vision", "reframe", "affirmations", "gratitude", "visualization"]

/-- The step names `handleEveningRitual` switches on (server.js lines
1225-1316). -/
def eveningStepIds : List String :=
  ["wins", "lesson", "growth", "tomorrow-impact", "tomorrow-leverage",
   "tomorrow-reality", "starter-actions"]

/-- Replacement of every hyphen by a space.  This is the reading the
specification gives of the model-id match (an id \"with its hyphens replaced
by spaces\"), to be compared with the source's `replace('-', ' ')`, which
replaces only the first hyphen. -/
def replaceAllHyphens (s : String) : String :=
  String.mk (s.toList.map (fun c => if c = '-' then ' ' else c))

/-- The specification's model-matching predicate, stated from the spec's
words: the lowered message contains the model's name or its id with all
hyphens replaced by spaces. -/
def specModelMatches (lowerMessage : String) (model : MentalModel) : Bool :=
  jsIncludes lowerMessage (replaceAllHyphens model.id) ||
  jsIncludes lowerMessage (jsToLower model.name)

/-- An empty session store, for concrete instantiations. -/
def emptyStore : Store := fun _ => none

/-- A matching, active, priority-10 resource fixture. -/
def activeHousingResource : Resource :=
  { id := 1, title := "Safe Housing Network",
    description := "LGBTQ+ friendly housing support",
    content := "Emergency accommodation and housing advice",
    website_url := some "https://example.org", phone := some "0100 000 0000",
    email := none, address := none, categoryName := some "Housing",
    keywords := ["housing"], tags := ["Housing"], is_active := true, priority := 10 }

/-- A matching but inactive priority-20 resource fixture. -/
def inactiveHousingResource : Resource :=
  { id := 2, title := "Closed Housing Project",
    description := "Former housing service",
    content := "Housing help, no longer operating",
    website_url := none, phone := none, email := none, address := none,
    categoryName := some "Housing", keywords := ["housing"], tags := ["Housing"],
    is_active := false, priority := 20 }

/-- A store holding one active and one inactive housing resource. -/
def exampleDb : Db := { resources := [activeHousingResource, inactiveHousingResource], fail := false }

/-- A store whose backing call fails. -/
def failingDb : Db := { resources := [activeHousingResource], fail := true }

/-- A session mid-way through problem solving: the problem text is captured
and the next message selects a mental model. -/
def problemSession : Session :=
  { id := "p", currentService := some "problem-solving",
    currentStep := some "introduction",
    progress := { problemDescription := some "my problem" },
    startedAt := 0, lastActivity := 0 }

/-- A freshly initialised wellness-coaching session, exactly as the router
creates it. -/
def wellnessStartSession : Session :=
  { id := "w", currentService := some "wellness-coaching",
    currentStep := some "introduction",
    progress := { completedSections := [], currentSection := some "persona-snapshot" },
    startedAt := 0, lastActivity := 0 }

/-- A wellness session whose section pointer references a removed section. -/
def badWellnessSession : Session :=
  { id := "w", currentService := some "wellness-coaching",
    currentStep := some "introduction",
    progress := { completedSections := [], currentSection := some "nonexistent-step" },
    startedAt := 0, lastActivity := 0 }

/-- A morning-ritual session whose step pointer references a removed step. -/
def badMorningSession : Session :=
  { id := "m", currentService := some "transformational-journaling",
    currentStep := some "time-identification",
    progress := { currentRitual := some "morning", morningStep := some "warmup" },
    startedAt := 0, lastActivity := 0 }

/-- An evening-ritual session whose step pointer references a removed step. -/
def badEveningSession : Session :=
  { id := "e", currentService := some "transformational-journaling",
    currentStep := some "time-identification",
    progress := { currentRitual := some "evening", eveningStep := some "recap" },
    startedAt := 0, lastActivity := 0 }

/-- A morning-ritual session waiting at the breathwork gate. -/
def breathworkSession : Session :=
  { id := "b", currentService := some "transformational-journaling",
    currentStep := some "time-identification",
    progress := { currentRitual := some "morning", morningStep := some "breathwork" },
    startedAt := 0, lastActivity := 0 }

/-- Number of critical keywords matching the lowered message. -/
def criticalMatchCount (m : String) : Nat :=
  (criticalKeywords.filter (fun k => jsIncludes (jsToLower m) k)).length

/-- Number of high-distress keywords matching the lowered message. -/
def highMatchCount (m : String) : Nat :=
  (highKeywords.filter (fun k => jsIncludes (jsToLower m) k)).length

/-- Number of medium-distress keywords matching the lowered message. -/
def mediumMatchCount (m : String) : Nat :=
  (mediumKeywords.filter (fun k => jsIncludes (jsToLower m) k)).length

theorem mem_insertByPriorityDesc {a r : Resource} {l : List Resource} :
    a ∈ insertByPriorityDesc r l ↔ a = r ∨ a ∈ l := by
  induction l with
  | nil => simp [insertByPriorityDesc]
  | cons x xs ih =>
    simp only [insertByPriorityDesc]
    split
    · simp
    · simp only [List.mem_cons, ih]
      tauto

theorem pairwise_insertByPriorityDesc {r : Resource} {l : List Resource}
    (h : l.Pairwise (fun a b => b.priority ≤ a.priority)) :
    (insertByPriorityDesc r l).Pairwise (fun a b => b.priority ≤ a.priority) := by
  induction l with
  | nil => simp [insertByPriorityDesc]
  | cons x xs ih =>
    rcases List.pairwise_cons.mp h with ⟨hx, hxs⟩
    simp only [insertByPriorityDesc]
    split
    · rename_i hlt
      refine List.pairwise_cons.mpr ⟨?_, h⟩
      intro y hy
      rcases List.mem_cons.mp hy with rfl | hy
      · omega
      · have := hx y hy
        omega
    · rename_i hge
      refine List.pairwise_cons.mpr ⟨?_, ih hxs⟩
      intro y hy
      rcases mem_insertByPriorityDesc.mp hy with rfl | hy
      · omega
      · exact hx y hy

theorem mem_sortByPriorityDesc {a : Resource} {l : List Resource} :
    a ∈ sortByPriorityDesc l ↔ a ∈ l := by
  induction l with
  | nil => simp [sortByPriorityDesc]
  | cons x xs ih =>
    simp only [sortByPriorityDesc, List.foldr_cons, List.mem_cons]
    rw [show List.foldr insertByPriorityDesc [] xs = sortByPriorityDesc xs from rfl] at *
    rw [mem_insertByPriorityDesc, ih]

theorem pairwise_sortByPriorityDesc (l : List Resource) :
    (sortByPriorityDesc l).Pairwise (fun a b => b.priority ≤ a.priority) := by
  induction l with
  | nil => simp [sortByPriorityDesc]
  | cons x xs ih =>
    simpa [sortByPriorityDesc] using
      pairwise_insertByPriorityDesc (r := x) (by simpa [sortByPriorityDesc] using ih)

theorem runQuery_invariant (db : Db) (cond : Resource → Bool) (lim : Nat) :
    queryResultInvariant (runQuery db cond lim) lim := by
  unfold runQuery queryResultInvariant
  split
  · simp
  · refine ⟨?_, ?_, ?_⟩
    · intro r hr
      have hr' : r ∈ sortByPriorityDesc (db.resources.filter (fun r => cond r && r.is_active)) :=
        List.mem_of_mem_take hr
      have := mem_sortByPriorityDesc.mp hr'
      have := List.mem_filter.mp this
      exact (by simpa using this.2 : cond r = true ∧ r.is_active = true).2
    · exact (pairwise_sortByPriorityDesc _).sublist (List.take_sublist _ _)
    · exact List.length_take_le _ _

/-- C1: for every inbound message whose distress classification has
`immediateResponse = true`, `respond` returns the fixed emergency template
selected by the classified level (the critical template for level critical,
the high template for level high) and returns before any session lookup or
mutation: the session store is returned untouched, so every stored session's
`currentService`, `currentStep` and `progress` are exactly as they were
before the call, even mid-dialogue. -/
theorem distress_short_circuit (db : Db) (now : Nat) (message : String)
    (userContext : Option String) (st : Store)
    (h : (detectDistressLevel message).immediateResponse = true) :
    respond db now message userContext st =
      (generateEmergencyResponse (detectDistressLevel message), st) ∧
    ((detectDistressLevel message).level = .critical →
      (respond db now message userContext st).1 = criticalEmergencyText) ∧
    ((detectDistressLevel message).level = .high →
      (respond db now message userContext st).1 = highEmergencyText) ∧
    (∀ sid s, st sid = some s → (respond db now message userContext st).2 sid = some s) := by
  have e : respond db now message userContext st =
      (generateEmergencyResponse (detectDistressLevel message), st) := by
    simp [respond, h]
  refine ⟨e, ?_, ?_, ?_⟩
  · intro hl
    rw [e]
    simp [generateEmergencyResponse, hl]
  · intro hl
    rw [e]
    simp [generateEmergencyResponse, hl]
  · intro sid s hs
    rw [e]
    exact hs

/-- Witness for C1 at the concrete crisis message. -/
theorem distress_short_circuit_witness :
    (detectDistressLevel "I want to end my life").immediateResponse = true ∧
    respond exampleDb 0 "I want to end my life" none emptyStore =
      (generateEmergencyResponse (detectDistressLevel "I want to end my life"), emptyStore) ∧
    (respond exampleDb 0 "I want to end my life" none emptyStore).1 = criticalEmergencyText :=
  ⟨by decide,
   (distress_short_circuit exampleDb 0 "I want to end my life" none emptyStore (by decide)).1,
   (distress_short_circuit exampleDb 0 "I want to end my life" none emptyStore (by decide)).2.1
     (by decide)⟩

/-- C2: the distress classifier returns level critical with
`immediateResponse = true` when at least one critical keyword matches;
otherwise level high with `immediateResponse = true` when there are at least
2 high matches, or at least 1 high and at least 1 medium match; otherwise
level medium with `immediateResponse = false` and `followUpRequired = true`
when there is at least 1 high or at least 2 medium matches; otherwise level
low with `followUpRequired = false` when there is at least 1 medium match;
otherwise level low with an empty indicator list. -/
theorem distress_level_classification (m : String) :
    (1 ≤ criticalMatchCount m →
      (detectDistressLevel m).level = .critical ∧
      (detectDistressLevel m).immediateResponse = true) ∧
    (criticalMatchCount m = 0 →
      (2 ≤ highMatchCount m ∨ (1 ≤ highMatchCount m ∧ 1 ≤ mediumMatchCount m)) →
      (detectDistressLevel m).level = .high ∧
      (detectDistressLevel m).immediateResponse = true) ∧
    (criticalMatchCount m = 0 →
      ¬(2 ≤ highMatchCount m ∨ (1 ≤ highMatchCount m ∧ 1 ≤ mediumMatchCount m)) →
      (1 ≤ highMatchCount m ∨ 2 ≤ mediumMatchCount m) →
      (detectDistressLevel m).level = .medium ∧
      (detectDistressLevel m).immediateResponse = false ∧
      (detectDistressLevel m).followUpRequired = true) ∧
    (criticalMatchCount m = 0 → highMatchCount m = 0 → mediumMatchCount m ≤ 1 →
      1 ≤ mediumMatchCount m →
      (detectDistressLevel m).level = .low ∧
      (detectDistressLevel m).followUpRequired = false) ∧
    (criticalMatchCount m = 0 → highMatchCount m = 0 → mediumMatchCount m = 0 →
      (detectDistressLevel m).level = .low ∧
      (detectDistressLevel m).indicators = []) := by
  simp only [criticalMatchCount, highMatchCount, mediumMatchCount, detectDistressLevel]
  split_ifs with h1 h2 h3 h4
  · exact ⟨fun _ => ⟨rfl, rfl⟩,
      fun hc _ => absurd hc (by omega),
      fun hc _ _ => absurd hc (by omega),
      fun hc _ _ _ => absurd hc (by omega),
      fun hc _ _ => absurd hc (by omega)⟩
  · simp only [Bool.or_eq_true, Bool.and_eq_true, decide_eq_true_eq] at h2
    exact ⟨fun hc => absurd (by omega : _ > 0) h1,
      fun _ _ => ⟨rfl, rfl⟩,
      fun _ hnh _ => absurd h2 hnh,
      fun _ hh0 _ _ => by rcases h2 with h | ⟨ha, hb⟩ <;> omega,
      fun _ hh0 hm0 => by rcases h2 with h | ⟨ha, hb⟩ <;> omega⟩
  · simp only [Bool.or_eq_true, Bool.and_eq_true, decide_eq_true_eq] at h2 h3
    exact ⟨fun hc => absurd (by omega : _ > 0) h1,
      fun _ hh => absurd hh h2,
      fun _ _ _ => ⟨rfl, rfl, rfl⟩,
      fun _ hh0 hmle hm1 => by rcases h3 with h | h <;> omega,
      fun _ hh0 hm0 => by rcases h3 with h | h <;> omega⟩
  · simp only [Bool.or_eq_true, Bool.and_eq_true, decide_eq_true_eq] at h2 h3
    exact ⟨fun hc => absurd (by omega : _ > 0) h1,
      fun _ hh => absurd hh h2,
      fun _ _ hm => absurd hm h3,
      fun _ _ _ _ => ⟨rfl, rfl⟩,
      fun _ _ hm0 => by omega⟩
  · simp only [Bool.or_eq_true, Bool.and_eq_true, decide_eq_true_eq] at h2 h3
    exact ⟨fun hc => absurd (by omega : _ > 0) h1,
      fun _ hh => absurd hh h2,
      fun _ _ hm => absurd hm h3,
      fun _ _ _ hm1 => absurd hm1 (by omega),
      fun _ _ _ => ⟨rfl, rfl⟩⟩

/-- Witness for C2, exercising each classification bucket on a concrete
message. -/
theorem distress_level_classification_witness :
    (1 ≤ criticalMatchCount "suicide" ∧
      (detectDistressLevel "suicide").level = .critical) ∧
    (criticalMatchCount "so depressed and alone" = 0 ∧
      2 ≤ highMatchCount "so depressed and alone" ∧
      (detectDistressLevel "so depressed and alone").level = .high) ∧
    (criticalMatchCount "worried and stressed" = 0 ∧
      2 ≤ mediumMatchCount "worried and stressed" ∧
      (detectDistressLevel "worried and stressed").level = .medium) ∧
    (mediumMatchCount "feeling down" = 1 ∧
      (detectDistressLevel "feeling down").level = .low ∧
      (detectDistressLevel "feeling down").followUpRequired = false) ∧
    ((detectDistressLevel "good morning").level = .low ∧
      (detectDistressLevel "good morning").indicators = []) :=
  ⟨⟨by decide, ((distress_level_classification "suicide").1 (by decide)).1⟩,
   ⟨by decide, by decide,
    ((distress_level_classification "so depressed and alone").2.1 (by decide)
      (Or.inl (by decide))).1⟩,
   ⟨by decide, by decide,
    ((distress_level_classification "worried and stressed").2.2.1 (by decide) (by decide)
      (Or.inr (by decide))).1⟩,
   ⟨by decide,
    ((distress_level_classification "feeling down").2.2.2.1 (by decide) (by decide)
      (by decide) (by decide)).1,
    ((distress_level_classification "feeling down").2.2.2.1 (by decide) (by decide)
      (by decide) (by decide)).2⟩,
   ⟨((distress_level_classification "good morning").2.2.2.2 (by decide) (by decide)
      (by decide)).1,
    ((distress_level_classification "good morning").2.2.2.2 (by decide) (by decide)
      (by decide)).2⟩⟩

/-- C3: starting wellness coaching and answering all 6 sections in order
produces exactly 6 distinct section prompts (the start prompt plus five
advance prompts) followed by the fixed completion summary; each turn stores
the raw message verbatim under `progress.responses[currentSectionId]`,
appends the section id to `progress.completedSections` only if not already
present, and advances `currentSection` in list order, so `completedSections`
ends with the 6 distinct ids; re-submitting an already-completed section
leaves `completedSections` unchanged. -/
theorem wellness_six_section_run (m1 m2 m3 m4 m5 m6 : String) (s0 : Session)
    (h1 : wantsMainMenu (jsToLower m1) = false)
    (h2 : wantsMainMenu (jsToLower m2) = false)
    (h3 : wantsMainMenu (jsToLower m3) = false)
    (h4 : wantsMainMenu (jsToLower m4) = false)
    (h5 : wantsMainMenu (jsToLower m5) = false)
    (h6 : wantsMainMenu (jsToLower m6) = false)
    (hp : s0.progress = { completedSections := [], currentSection := some "persona-snapshot" }) :
    runWellnessConversation [m1, m2, m3, m4, m5, m6] s0 =
      ([sectionCompleteText (wellnessSection 0) (wellnessSection 1) 1,
        sectionCompleteText (wellnessSection 1) (wellnessSection 2) 2,
        sectionCompleteText (wellnessSection 2) (wellnessSection 3) 3,
        sectionCompleteText (wellnessSection 3) (wellnessSection 4) 4,
        sectionCompleteText (wellnessSection 4) (wellnessSection 5) 5,
        generateWellnessSummary s0],
       { s0 with progress :=
          { completedSections := ["persona-snapshot", "wellness-domains", "current-state-audit",
              "aspirational-vision", "gap-analysis", "motivation-mapping"],
            currentSection := some "motivation-mapping",
            responses := [("persona-snapshot", m1), ("wellness-domains", m2),
              ("current-state-audit", m3), ("aspirational-vision", m4),
              ("gap-analysis", m5), ("motivation-mapping", m6)] } }) ∧
    [startWellnessCoaching,
     sectionCompleteText (wellnessSection 0) (wellnessSection 1) 1,
     sectionCompleteText (wellnessSection 1) (wellnessSection 2) 2,
     sectionCompleteText (wellnessSection 2) (wellnessSection 3) 3,
     sectionCompleteText (wellnessSection 3) (wellnessSection 4) 4,
     sectionCompleteText (wellnessSection 4) (wellnessSection 5) 5].Nodup ∧
    ["persona-snapshot", "wellness-domains", "current-state-audit",
     "aspirational-vision", "gap-analysis", "motivation-mapping"].Nodup ∧
    ["persona-snapshot", "wellness-domains", "current-state-audit",
     "aspirational-vision", "gap-analysis", "motivation-mapping"].length = 6 ∧
    (∀ s s' : Session, generateWellnessSummary s = generateWellnessSummary s') ∧
    (∀ (m7 : String) (s7 : Session), wantsMainMenu (jsToLower m7) = false →
      s7.progress.currentSection = some "motivation-mapping" →
      s7.progress.completedSections.contains "motivation-mapping" = true →
      (handleWellnessCoaching m7 s7).2.progress.completedSections =
        s7.progress.completedSections) := by
  refine ⟨?_, ?_, ?_, ?_, fun s s' => rfl, ?_⟩
  · simp [runWellnessConversation, handleWellnessCoaching, h1, h2, h3, h4, h5, h6, hp,
      wellnessSection, WELLNESS_SECTIONS, setEntry, List.findIdx_cons,
      List.getElem?_cons_zero, List.getElem?_cons_succ, generateWellnessSummary]
  · decide
  · decide
  · decide
  · intro m7 s7 hnav hsec hcomp
    simp [handleWellnessCoaching, hnav, hsec, hcomp, WELLNESS_SECTIONS, List.findIdx_cons,
      List.getElem?_cons_zero, List.getElem?_cons_succ]
    simpa using hcomp

/-- Witness for C3: a concrete six-answer run through wellness coaching. -/
theorem wellness_six_section_run_witness :
    wellnessStartSession.progress =
      { completedSections := [], currentSection := some "persona-snapshot" } ∧
    (runWellnessConversation ["answer one", "answer two", "answer three", "answer four",
        "answer five", "answer six"] wellnessStartSession).2.progress.completedSections =
      ["persona-snapshot", "wellness-domains", "current-state-audit",
       "aspirational-vision", "gap-analysis", "motivation-mapping"] := by
  have h := (wellness_six_section_run "answer one" "answer two" "answer three" "answer four"
      "answer five" "answer six" wellnessStartSession (by decide) (by decide) (by decide)
      (by decide) (by decide) (by decide) rfl).1
  exact ⟨rfl, by rw [h]⟩

/-- C4: for a fresh session, sending \"wellness\" and then \"main menu\"
returns the wellness start prompt and then the main menu text, and leaves the
stored session with `currentService` and `currentStep` cleared and `progress`
empty - the same observable state as a brand-new session. -/
theorem wellness_main_menu_roundtrip (db : Db) (now1 now2 : Nat) (sid : String) (st0 : Store)
    (hsid : sid ≠ "") (hfresh : st0 sid = none) :
    (respond db now1 "wellness" (some sid) st0).1 = startWellnessCoaching ∧
    (respond db now2 "main menu" (some sid) (respond db now1 "wellness" (some sid) st0).2).1 =
      generateServiceSelectionResponse ∧
    (∃ s : Session,
      (respond db now2 "main menu" (some sid)
          (respond db now1 "wellness" (some sid) st0).2).2 sid = some s ∧
      s.currentService = none ∧ s.currentStep = none ∧ s.progress = {} ∧
      s.currentService = (freshSession sid now2).currentService ∧
      s.currentStep = (freshSession sid now2).currentStep ∧
      s.progress = (freshSession sid now2).progress) := by
  have hkey : sessionKeyOf (some sid) = sid := by simp [sessionKeyOf, hsid]
  have hd1 : (detectDistressLevel "wellness").immediateResponse = false := by decide
  have hd2 : (detectDistressLevel "main menu").immediateResponse = false := by decide
  have ca1 : jsIncludes (jsToLower "wellness") "health advice" = false := by decide
  have ca2 : jsIncludes (jsToLower "wellness") "health guidance" = false := by decide
  have ca3 : jsIncludes (jsToLower "wellness") "sexual health" = false := by decide
  have ca4 : jsIncludes (jsToLower "wellness") "mental health" = false := by decide
  have ca5 : jsIncludes (jsToLower "wellness") "physical health" = false := by decide
  have ca6 : jsIncludes (jsToLower "wellness") "healthcare" = false := by decide
  have cw : jsIncludes (jsToLower "wellness") "wellness" = true := by decide
  have n1 : wantsMainMenu (jsToLower "main menu") = true := by decide
  have e1 : respond db now1 "wellness" (some sid) st0 =
      (startWellnessCoaching, setSession st0 sid
        { id := sid, currentService := some "wellness-coaching",
          currentStep := some "introduction",
          progress := { completedSections := [], currentSection := some "persona-snapshot" },
          startedAt := now1, lastActivity := now1 }) := by
    simp [respond, hd1, generateIVORResponse, hkey, hfresh, freshSession, routeMessage,
      ca1, ca2, ca3, ca4, ca5, ca6, cw]
  have e2 : respond db now2 "main menu" (some sid)
        (setSession st0 sid
          { id := sid, currentService := some "wellness-coaching",
            currentStep := some "introduction",
            progress := { completedSections := [], currentSection := some "persona-snapshot" },
            startedAt := now1, lastActivity := now1 }) =
      (generateServiceSelectionResponse,
       setSession
         (setSession st0 sid
           { id := sid, currentService := some "wellness-coaching",
             currentStep := some "introduction",
             progress := { completedSections := [], currentSection := some "persona-snapshot" },
             startedAt := now1, lastActivity := now1 }) sid
         { id := sid, currentService := none, currentStep := none, progress := {},
           startedAt := now1, lastActivity := now2 }) := by
    simp [respond, hd2, generateIVORResponse, hkey, setSession, routeMessage,
      handleServiceConversation, handleWellnessCoaching, n1, navigateToMainMenu]
  refine ⟨by rw [e1], by rw [e1, e2], ?_⟩
  rw [e1, e2]
  exact ⟨{ id := sid, currentService := none, currentStep := none, progress := {},
           startedAt := now1, lastActivity := now2 },
         by simp [setSession], rfl, rfl, rfl, rfl, rfl, rfl⟩

/-- Witness for C4 at a concrete session id and starting store. -/
theorem wellness_main_menu_roundtrip_witness :
    ("user-1" : String) ≠ "" ∧ emptyStore "user-1" = none ∧
    (respond exampleDb 0 "wellness" (some "user-1") emptyStore).1 = startWellnessCoaching ∧
    (respond exampleDb 1 "main menu" (some "user-1")
      (respond exampleDb 0 "wellness" (some "user-1") emptyStore).2).1 =
      generateServiceSelectionResponse :=
  ⟨by decide, rfl,
   (wellness_main_menu_roundtrip exampleDb 0 1 "user-1" emptyStore (by decide) rfl).1,
   (wellness_main_menu_roundtrip exampleDb 0 1 "user-1" emptyStore (by decide) rfl).2.1⟩

/-- C5: at the breathwork step of the morning ritual, every message without
the substring \"ready\" (case-insensitive) gets the one fixed breathwork
reminder back and leaves the session - in particular
`progress.morningStep` - completely unchanged; a message containing
\"ready\" advances the step to vision; and the step pointer can only leave
\"breathwork\" on a message containing \"ready\". -/
theorem breathwork_blocking_gate (m : String) (s : Session)
    (hstep : s.progress.morningStep = some "breathwork") :
    (jsIncludes (jsToLower m) "ready" = false →
      handleMorningRitual m s = (breathworkReminderText, s)) ∧
    (jsIncludes (jsToLower m) "ready" = true →
      handleMorningRitual m s =
        (visionOfTheDayText,
         { s with progress := { s.progress with morningStep := some "vision" } })) ∧
    ((handleMorningRitual m s).2.progress.morningStep ≠ some "breathwork" →
      jsIncludes (jsToLower m) "ready" = true) := by
  have eno : jsIncludes (jsToLower m) "ready" = false →
      handleMorningRitual m s = (breathworkReminderText, s) := by
    intro hr
    simp [handleMorningRitual, hstep, hr]
  refine ⟨eno, ?_, ?_⟩
  · intro hr
    simp [handleMorningRitual, hstep, hr]
  · intro hne
    by_cases hr : jsIncludes (jsToLower m) "ready" = true
    · exact hr
    · exfalso
      apply hne
      rw [eno (by simpa using hr)]
      exact hstep

/-- Witness for C5: a non-ready and a ready message at the breathwork
gate. -/
theorem breathwork_blocking_gate_witness :
    breathworkSession.progress.morningStep = some "breathwork" ∧
    jsIncludes (jsToLower "one more minute") "ready" = false ∧
    handleMorningRitual "one more minute" breathworkSession =
      (breathworkReminderText, breathworkSession) ∧
    (handleMorningRitual "I am ready" breathworkSession).2.progress.morningStep =
      some "vision" := by
  refine ⟨rfl, by decide,
    (breathwork_blocking_gate "one more minute" breathworkSession rfl).1 (by decide), ?_⟩
  rw [(breathwork_blocking_gate "I am ready" breathworkSession rfl).2.1 (by decide)]

/-- Counterexample to C6 as stated: the message \"second order thinking\"
contains the id `second-order-thinking` with its hyphens replaced by spaces,
so under the claim it should select the Second-Order Thinking model; the code
replaces only the first hyphen (`replace('-', ' ')`), finds no match, leaves
`selectedModel` unset and silently applies First Principles instead. -/
theorem mental_model_matching_counterexample :
    specModelMatches (jsToLower "second order thinking") secondOrderThinkingModel = true ∧
    wantsMainMenu (jsToLower "second order thinking") = false ∧
    problemSession.progress.problemDescription = some "my problem" ∧
    (handleProblemSolving "second order thinking" problemSession).2.progress.selectedModel =
      none ∧
    (handleProblemSolving "second order thinking" problemSession).1 =
      applyMentalModel firstPrinciplesModel "my problem" ∧
    applyMentalModel firstPrinciplesModel "my problem" ≠
      applyMentalModel secondOrderThinkingModel "my problem" :=
  ⟨by decide, by decide, rfl, by decide, by decide, by decide⟩

/-- C6 (amended): after the problem description is captured, the next
message selects a mental model exactly when it contains (case-insensitive)
one of the five fixed model names or a model id with its FIRST hyphen
replaced by a space (JavaScript `replace` with a string pattern replaces
only the first occurrence); the first such model in list order wins, its
fixed question frame is displayed with the problem text re-interpolated and
`progress.selectedModel` is set to its id; on no match the First Principles
frame is returned unchanged-session (no error, no re-prompt, no
`selectedModel` update). -/
theorem mental_model_selection_amended (m : String) (s : Session) (desc : String)
    (hnav : wantsMainMenu (jsToLower m) = false)
    (hdesc : s.progress.problemDescription = some desc) :
    (∀ model : MentalModel,
      MENTAL_MODELS.find? (fun model =>
          jsIncludes (jsToLower m) (replaceFirstHyphen model.id) ||
          jsIncludes (jsToLower m) (jsToLower model.name)) = some model →
      handleProblemSolving m s =
        (applyMentalModel model desc,
         { s with progress := { s.progress with selectedModel := some model.id } })) ∧
    (MENTAL_MODELS.find? (fun model =>
        jsIncludes (jsToLower m) (replaceFirstHyphen model.id) ||
        jsIncludes (jsToLower m) (jsToLower model.name)) = none →
      handleProblemSolving m s = (autoSelectMentalModel m desc, s) ∧
      autoSelectMentalModel m desc = applyMentalModel firstPrinciplesModel desc) := by
  constructor
  · intro model hfind
    simp [handleProblemSolving, hnav, hdesc, hfind]
  · intro hfind
    refine ⟨?_, rfl⟩
    simp [handleProblemSolving, hnav, hdesc, hfind]

/-- Witness for C6 (amended): a message containing \"circle of control\" in
mixed case applies the Circle of Control question frame and records the
model id. -/
theorem mental_model_selection_amended_witness :
    wantsMainMenu (jsToLower "Circle of Control") = false ∧
    (handleProblemSolving "Circle of Control" problemSession).1 =
      applyMentalModel circleOfControlModel "my problem" ∧
    (handleProblemSolving "Circle of Control" problemSession).2.progress.selectedModel =
      some "circle-of-control" := by
  have happ := (mental_model_selection_amended "Circle of Control" problemSession "my problem"
      (by decide) rfl).1 circleOfControlModel (by decide)
  refine ⟨by decide, ?_, ?_⟩
  · rw [happ]
  · rw [happ]
    rfl

/-- C7: every resource query of the store adapter - search, by-category,
by-tags and hence the crisis shortcut - returns only resources with
`is_active = true`, ordered by priority descending, and truncated to the
given limit (3 for the crisis shortcut). -/
theorem resource_queries_active_sorted_limited (db : Db) (q cat : String)
    (ts : List String) (lim : Nat) :
    queryResultInvariant (searchResources db q lim) lim ∧
    queryResultInvariant (getResourcesByCategory db cat lim) lim ∧
    queryResultInvariant (getResourcesByTags db ts lim) lim ∧
    queryResultInvariant (getCrisisResources db) 3 :=
  ⟨runQuery_invariant db _ lim, runQuery_invariant db _ lim,
   runQuery_invariant db _ lim, runQuery_invariant db _ 3⟩

/-- Witness for C7: against a store with one active priority-10 and one
inactive priority-20 resource - both matching the query - only the active one
comes back, and its activity also follows from the invariant theorem. -/
theorem resource_queries_active_sorted_limited_witness :
    searchMatches "housing" activeHousingResource = true ∧
    searchMatches "housing" inactiveHousingResource = true ∧
    inactiveHousingResource.is_active = false ∧
    inactiveHousingResource.priority = 20 ∧
    searchResources exampleDb "housing" 5 = [activeHousingResource] ∧
    activeHousingResource.is_active = true := by
  refine ⟨by decide, by decide, rfl, rfl, by decide, ?_⟩
  exact (resource_queries_active_sorted_limited exampleDb "housing" "Housing" ["Crisis"] 5).1.1
    activeHousingResource (by decide)

/-- C8: on a backing-store error every resource query returns the empty list
instead of raising; formatting an empty resource list yields the one fixed
fallback text whatever the intro argument is; hence the user-visible reply
after a failed lookup is literally the reply for \"no resources found\" and
never a technical error string. -/
theorem store_error_fallback (db : Db) (hfail : db.fail = true) (q cat : String)
    (ts : List String) (lim : Nat) (introA introB : String) :
    searchResources db q lim = [] ∧
    getResourcesByCategory db cat lim = [] ∧
    getResourcesByTags db ts lim = [] ∧
    getCrisisResources db = [] ∧
    formatResourcesForResponse [] introA = noResourcesFallbackText ∧
    formatResourcesForResponse (searchResources db q lim) introA =
      formatResourcesForResponse [] introB := by
  refine ⟨?_, ?_, ?_, ?_, ?_, ?_⟩ <;>
    simp [searchResources, getResourcesByCategory, getResourcesByTags, getCrisisResources,
      runQuery, hfail, formatResourcesForResponse]

/-- Witness for C8 on a concrete failing store. -/
theorem store_error_fallback_witness :
    failingDb.fail = true ∧
    searchResources failingDb "housing" 5 = [] ∧
    formatResourcesForResponse (searchResources failingDb "housing" 5) "found these:" =
      noResourcesFallbackText := by
  have h := store_error_fallback failingDb rfl "housing" "Housing" ["Crisis"] 5
    "found these:" "found these:"
  exact ⟨rfl, h.1, by rw [h.2.2.2.2.2]; exact h.2.2.2.2.1⟩

/-- Counterexample to C9 as stated: a wellness session whose
`currentSection` references a section that does not exist is answered with
the fixed completion summary, not with the script's `start()` output
(`startWellnessCoaching`) - the claimed restart only happens for the morning
and evening rituals. -/
theorem unknown_step_wellness_counterexample :
    badWellnessSession.progress.currentSection = some "nonexistent-step" ∧
    (∀ sec ∈ WELLNESS_SECTIONS, sec.id ≠ "nonexistent-step") ∧
    (handleWellnessCoaching "hello" badWellnessSession).1 =
      generateWellnessSummary badWellnessSession ∧
    generateWellnessSummary badWellnessSession ≠ startWellnessCoaching :=
  ⟨rfl, by decide, by decide, by decide⟩

/-- C9 (amended): a session whose active script's step pointer references a
step that does not exist is handled without crashing: the morning and
evening ritual handlers fall back to their script's `start()` output, while
the wellness handler falls back to the fixed completion summary instead of
its start output. -/
theorem unknown_step_fallback_amended (m : String) (s : Session) :
    (∀ stp : String, s.progress.morningStep = some stp → stp ∉ morningStepIds →
      handleMorningRitual m s = (startMorningRitual, s)) ∧
    (∀ stp : String, s.progress.eveningStep = some stp → stp ∉ eveningStepIds →
      handleEveningRitual m s = (startEveningRitual, s)) ∧
    (wantsMainMenu (jsToLower m) = false →
      ∀ cid : String, s.progress.currentSection = some cid →
        (∀ sec ∈ WELLNESS_SECTIONS, sec.id ≠ cid) →
        handleWellnessCoaching m s = (generateWellnessSummary s, s)) := by
  refine ⟨?_, ?_, ?_⟩
  · intro stp hstep hnotin
    simp only [morningStepIds, List.mem_cons, List.not_mem_nil, or_false, not_or] at hnotin
    obtain ⟨n1, n2, n3, n4, n5, n6⟩ := hnotin
    simp [handleMorningRitual, hstep, n1, n2, n3, n4, n5, n6]
  · intro stp hstep hnotin
    simp only [eveningStepIds, List.mem_cons, List.not_mem_nil, or_false, not_or] at hnotin
    obtain ⟨n1, n2, n3, n4, n5, n6, n7⟩ := hnotin
    simp [handleEveningRitual, hstep, n1, n2, n3, n4, n5, n6, n7]
  · intro hnav cid hsec hic
    have hfind : WELLNESS_SECTIONS.find? (fun sec => sec.id == cid) = none := by
      rw [List.find?_eq_none]
      intro x hx
      simp only [beq_iff_eq]
      exact hic x hx
    simp [handleWellnessCoaching, hnav, hsec, hfind]

/-- Witness for C9 (amended) at concrete sessions with removed step
pointers. -/
theorem unknown_step_fallback_amended_witness :
    badMorningSession.progress.morningStep = some "warmup" ∧
    handleMorningRitual "hello" badMorningSession = (startMorningRitual, badMorningSession) ∧
    badEveningSession.progress.eveningStep = some "recap" ∧
    handleEveningRitual "hello" badEveningSession = (startEveningRitual, badEveningSession) ∧
    handleWellnessCoaching "hello" badWellnessSession =
      (generateWellnessSummary badWellnessSession, badWellnessSession) :=
  ⟨rfl,
   (unknown_step_fallback_amended "hello" badMorningSession).1 "warmup" rfl (by decide),
   rfl,
   (unknown_step_fallback_amended "hello" badEveningSession).2.1 "recap" rfl (by decide),
   (unknown_step_fallback_amended "hello" badWellnessSession).2.2 (by decide)
     "nonexistent-step" rfl (by decide)⟩

/-- C10: a call whose user context supplies no session id uses the literal
session key \"default\": it behaves exactly like a call with session id
\"default\", it mutates no other key of the store, and two successive
no-session-id calls read and mutate the same shared session - the second
call continues the service the first call started under \"default\". -/
theorem default_session_key_sharing (db : Db) (now now2 : Nat) (m m2 : String) (st : Store)
    (hfresh : st "default" = none) :
    sessionKeyOf none = "default" ∧
    generateIVORResponse db now m none st = generateIVORResponse db now m (some "default") st ∧
    (∀ k : String, k ≠ "default" → (generateIVORResponse db now m none st).2 k = st k) ∧
    (∃ s1 : Session,
      (generateIVORResponse db now "wellness" none st).2 "default" = some s1 ∧
      s1.currentService = some "wellness-coaching" ∧
      generateIVORResponse db now2 m2 none ((generateIVORResponse db now "wellness" none st).2) =
        ((handleServiceConversation m2 { s1 with lastActivity := now2 }).1,
         setSession ((generateIVORResponse db now "wellness" none st).2) "default"
           (handleServiceConversation m2 { s1 with lastActivity := now2 }).2)) := by
  have ca1 : jsIncludes (jsToLower "wellness") "health advice" = false := by decide
  have ca2 : jsIncludes (jsToLower "wellness") "health guidance" = false := by decide
  have ca3 : jsIncludes (jsToLower "wellness") "sexual health" = false := by decide
  have ca4 : jsIncludes (jsToLower "wellness") "mental health" = false := by decide
  have ca5 : jsIncludes (jsToLower "wellness") "physical health" = false := by decide
  have ca6 : jsIncludes (jsToLower "wellness") "healthcare" = false := by decide
  have cw : jsIncludes (jsToLower "wellness") "wellness" = true := by decide
  have e1 : generateIVORResponse db now "wellness" none st =
      (startWellnessCoaching, setSession st "default"
        { id := "default", currentService := some "wellness-coaching",
          currentStep := some "introduction",
          progress := { completedSections := [], currentSection := some "persona-snapshot" },
          startedAt := now, lastActivity := now }) := by
    simp [generateIVORResponse, sessionKeyOf, hfresh, freshSession, routeMessage,
      ca1, ca2, ca3, ca4, ca5, ca6, cw]
  refine ⟨rfl, rfl, ?_, ?_⟩
  · intro k hk
    simp [generateIVORResponse, sessionKeyOf, setSession, hk]
  · refine ⟨{ id := "default", currentService := some "wellness-coaching",
               currentStep := some "introduction",
               progress := { completedSections := [], currentSection := some "persona-snapshot" },
               startedAt := now, lastActivity := now }, ?_, rfl, ?_⟩
    · rw [e1]
      simp [setSession]
    · rw [e1]
      simp [generateIVORResponse, sessionKeyOf, setSession, routeMessage]

/-- Witness for C10: with no session id the store is touched only under the
key \"default\". -/
theorem default_session_key_sharing_witness :
    sessionKeyOf none = "default" ∧
    emptyStore "default" = none ∧
    (generateIVORResponse exampleDb 0 "wellness" none emptyStore).2 "other-user" = none ∧
    (∃ s1 : Session,
      (generateIVORResponse exampleDb 0 "wellness" none emptyStore).2 "default" = some s1 ∧
      s1.currentService = some "wellness-coaching") := by
  have h := default_session_key_sharing exampleDb 0 1 "wellness" "hello" emptyStore rfl
  refine ⟨h.1, rfl, ?_, ?_⟩
  · have hk := h.2.2.1 "other-user" (by decide)
    simpa [emptyStore] using hk
  · obtain ⟨s1, hs1, hcs, _⟩ := h.2.2.2
    exact ⟨s1, hs1, hcs⟩
